import Mathlib

/-!
Verification of the whatspoints WhatsApp session-lifecycle manager.

This file shallowly embeds the session/pairing/event-routing core of the
repository: the `ClientManager` of `whatsapp/whatsapp.go`, the persisted
sender table of `repository/sender.go` (`src/unnamed/part_013`), the
`SenderRegistrationService` of `internal/application` and the
`whatsappRepository` of `internal/infrastructure/whatsapp_repository.go`.
External collaborators (the whatsmeow client library, the SQL database)
are modelled by explicit state plus an action trace recording the calls
the code makes into them.
-/

namespace WhatsPoints

/-- A whatsmeow client handle.  We track the fields the embedded code
reads: the device identity (`client.Store.ID`, `none` for a fresh
unpaired device, `some user` once paired) and the connection flag
returned by `IsConnected()`.  Map values and session clients are always
non-nil in the source, so the handle is not optional here. -/
structure Client where
  storeID : Option String
  connected : Bool
  deriving Repr, DecidableEq

/-- A persisted sender record (`repository.Sender`); the timestamp
columns are not read by any embedded operation and are omitted. -/
structure Sender where
  senderID : String
  phoneNumber : String
  name : String
  isDefault : Bool
  isActive : Bool
  deriving Repr, DecidableEq

/-- Calls the embedded code makes into its external collaborators
(whatsmeow connections, the sender table, the device-credential store,
the message pipeline), recorded as a trace. -/
inductive Action where
  | connect (c : Client)
  | disconnect (c : Client)
  | pairPhone (phone : String)
  | updateStatus (senderID : String) (active : Bool)
  | deleteDevice (senderID : String)
  | dispatchMessage
  deriving Repr, DecidableEq

/-- The `ClientManager` state together with the persisted state it
manipulates: the live `clients` map, the in-memory default pointer, the
`reconnecting` set, the persisted sender table and the persisted
device-credential store (one entry per paired device identity). -/
structure ManagerState where
  clients : List (String × Client)
  defaultSenderID : String
  reconnecting : List String
  senders : List Sender
  devices : List String
  deriving Repr, DecidableEq

/-- Go map assignment `m[k] = v`: overwrite any existing entry. -/
def mapInsert {α : Type} (l : List (String × α)) (k : String) (v : α) :
    List (String × α) :=
  (k, v) :: l.filter (fun p => p.1 != k)

/-- Go map deletion `delete(m, k)`. -/
def mapErase {α : Type} (l : List (String × α)) (k : String) :
    List (String × α) :=
  l.filter (fun p => p.1 != k)

/-- Model of `repository.UpdateSenderStatus`: `UPDATE senders SET is_active = $1
WHERE sender_id = $2`.  When no row matches, the SQL updates nothing and
the Go callers merely log the returned error. -/
def updateSenderStatus (senders : List Sender) (senderID : String)
    (isActive : Bool) : List Sender :=
  senders.map fun s =>
    if s.senderID == senderID then { s with isActive := isActive } else s

/-- Model of `repository.CreateSenderIfNotExists`: `INSERT ... ON CONFLICT
(sender_id) DO NOTHING`, with `is_active = true`. -/
def createSenderIfNotExists (senders : List Sender)
    (senderID phoneNumber name : String) (isDefault : Bool) : List Sender :=
  if senders.any (fun s => s.senderID == senderID) then senders
  else senders ++ [⟨senderID, phoneNumber, name, isDefault, true⟩]

/-- Model of `repository.SetDefaultSender`: inside one transaction, unset every
default flag, then set `is_default = true` where `sender_id` matches;
zero rows affected aborts the transaction (rollback, table unchanged)
and returns an error, modelled as `none`. -/
def repoSetDefaultSender (senders : List Sender) (senderID : String) :
    Option (List Sender) :=
  if senders.any (fun s => s.senderID == senderID) then
    some (senders.map fun s => { s with isDefault := s.senderID == senderID })
  else none

/-- Typed outcomes of `ClientManager` operations. -/
inductive MgrError where
  | senderNotFound (senderID : String)
  | noDefaultClient
  | dbError
  deriving Repr, DecidableEq

/-- Model of `ClientManager.GetClient`: look the sender up in the live map. -/
def GetClient (st : ManagerState) (senderID : String) :
    Except MgrError Client :=
  match st.clients.lookup senderID with
  | some c => .ok c
  | none => .error (.senderNotFound senderID)

/-- Model of `ClientManager.GetDefaultClient`: with no in-memory default, fall
back to the first persisted device; otherwise look up the default. -/
def GetDefaultClient (st : ManagerState) : Except MgrError Client :=
  if st.defaultSenderID == "" then
    match st.devices with
    | [] => .error .noDefaultClient
    | d :: _ => GetClient st d
  else
    GetClient st st.defaultSenderID

/-- Model of `ClientManager.ensureSenderRecord`: the record is inserted as the
default exactly when the in-memory default pointer is empty. -/
def ensureSenderRecord (st : ManagerState) (senderID phoneNumber : String) :
    ManagerState :=
  let senders' :=
    createSenderIfNotExists st.senders senderID phoneNumber
      ("Sender " ++ senderID) (st.defaultSenderID == "")
  { st with senders := senders' }

/-- Model of `ClientManager.AddExistingClient`: insert into the live map and take
the default slot if it is empty. -/
def AddExistingClient (st : ManagerState) (c : Client) (senderID : String) :
    ManagerState :=
  let st := { st with clients := mapInsert st.clients senderID c }
  if st.defaultSenderID == "" then { st with defaultSenderID := senderID }
  else st

/-- Model of `ClientManager.SetDefaultSender`: fail if the sender is not live,
otherwise persist the default swap transactionally, then update the
in-memory pointer. -/
def SetDefaultSender (st : ManagerState) (senderID : String) :
    Except MgrError ManagerState :=
  if (st.clients.lookup senderID).isSome then
    match repoSetDefaultSender st.senders senderID with
    | some senders' =>
        .ok { st with senders := senders', defaultSenderID := senderID }
    | none => .error .dbError
  else .error (.senderNotFound senderID)

/-- Provider events delivered to a managed session's handler. -/
inductive WAEvent where
  | connectedE
  | disconnectedE
  | pairSuccessE
  | loggedOut (reason : Nat)
  | streamReplaced
  | streamError (code : String)
  | message
  | other
  deriving Repr, DecidableEq

/-- Model of `whatsapp.handleEvent`: logs every lifecycle event and forwards
inbound messages to the message pipeline. -/
def handleEventActions (e : WAEvent) : List Action :=
  match e with
  | .message => [.dispatchMessage]
  | _ => []

/-- Model of `ClientManager.handleEventWithCleanup`: the per-session event
router.  Connected marks the record active and clears the reconnecting
flag; Disconnected, StreamError and StreamReplaced are log-only by
design; LoggedOut retires the identity: record inactive, removed from
the live map and the reconnecting set, default pointer cleared if it
pointed here, persisted device credentials deleted. -/
def handleEventWithCleanup (st : ManagerState) (c : Client) (e : WAEvent) :
    ManagerState × List Action :=
  match e with
  | .connectedE =>
    match c.storeID with
    | some senderID =>
        ({ st with
            reconnecting := st.reconnecting.filter (fun x => x != senderID),
            senders := updateSenderStatus st.senders senderID true },
         [.updateStatus senderID true] ++ handleEventActions e)
    | none => (st, handleEventActions e)
  | .loggedOut _ =>
    match c.storeID with
    | some senderID =>
        ({ st with
            senders := updateSenderStatus st.senders senderID false,
            clients := mapErase st.clients senderID,
            reconnecting := st.reconnecting.filter (fun x => x != senderID),
            defaultSenderID :=
              if st.defaultSenderID == senderID then "" else st.defaultSenderID,
            devices := st.devices.filter (fun x => x != senderID) },
         [.updateStatus senderID false, .deleteDevice senderID]
           ++ handleEventActions e)
    | none => (st, handleEventActions e)
  | _ => (st, handleEventActions e)

/-- Which one-shot signal wins the first select of a pairing attempt:
`pairingDone`, `pairingFailed`, or the five-minute `pairingTimeout`. -/
inductive PairSignal where
  | sSuccess
  | sFailed
  | sTimeout
  deriving Repr, DecidableEq

/-- Which signal wins the second select: `connectionDone`, the 30-second
timeout, or `pairingFailed`. -/
inductive ConnSignal where
  | cConnected
  | cTimeout
  | cFailed
  deriving Repr, DecidableEq

/-- Environment schedule for one pairing attempt: whether the websocket
connect fails, which signal wins each select, and the device identity
assigned by the provider on successful pairing (`none` if the device ID
is still unset afterwards). -/
structure PairSchedule where
  connectFails : Bool
  firstSignal : PairSignal
  connSignal : ConnSignal
  assignedID : Option String
  deriving Repr, DecidableEq

/-- The typed failures of the pairing coordinator. -/
inductive PairError where
  | connectFailed
  | pairingTimeout
  | pairingFailed
  | connectionTimeout
  | connectionFailedAfterPairing
  | noDeviceID
  | pairPhoneFailed
  deriving Repr, DecidableEq

/-- Result of a pairing run: the returned value or typed failure, the
manager/persisted state afterwards, and the trace of provider calls. -/
structure PairResult where
  result : Except PairError Client
  state : ManagerState
  trace : List Action

/-- Model of `ClientManager.AddNewClient` (QR flow): fresh anonymous device, QR
channel, connect, then a five-minute wait for pairing followed by a
30-second wait for connection; on full success the sender record is
ensured and the client inserted into the live map.  No failure path
disconnects the half-open connection. -/
def AddNewClient (st : ManagerState) (sched : PairSchedule) : PairResult :=
  let fresh : Client := ⟨none, false⟩
  let tr := [Action.connect fresh]
  if sched.connectFails then ⟨.error .connectFailed, st, tr⟩
  else
    match sched.firstSignal with
    | .sTimeout => ⟨.error .pairingTimeout, st, tr⟩
    | .sFailed => ⟨.error .pairingFailed, st, tr⟩
    | .sSuccess =>
      match sched.connSignal with
      | .cTimeout => ⟨.error .connectionTimeout, st, tr⟩
      | .cFailed => ⟨.error .connectionFailedAfterPairing, st, tr⟩
      | .cConnected =>
        match sched.assignedID with
        | none => ⟨.error .noDeviceID, st, tr⟩
        | some senderID =>
          let paired : Client := ⟨some senderID, true⟩
          let st := ensureSenderRecord st senderID senderID
          let st := { st with clients := mapInsert st.clients senderID paired }
          ⟨.ok paired, st, tr⟩

/-- Schedule for a pairing-code attempt: additionally whether the
`PairPhone` call returns a code or an error. -/
structure CodePairSchedule where
  connectFails : Bool
  pairPhoneCode : Option String
  firstSignal : PairSignal
  connSignal : ConnSignal
  assignedID : Option String
  deriving Repr, DecidableEq

/-- Model of `ClientManager.AddNewClientWithPairingCode`: connect, request the
pairing code for the given (raw) phone number, then the same two-stage
wait.  No failure path disconnects the half-open connection. -/
def AddNewClientWithPairingCode (st : ManagerState) (phoneNumber : String)
    (sched : CodePairSchedule) : PairResult :=
  let fresh : Client := ⟨none, false⟩
  if sched.connectFails then ⟨.error .connectFailed, st, [.connect fresh]⟩
  else
    let tr := [Action.connect fresh, Action.pairPhone phoneNumber]
    match sched.pairPhoneCode with
    | none => ⟨.error .pairPhoneFailed, st, tr⟩
    | some _ =>
      match sched.firstSignal with
      | .sTimeout => ⟨.error .pairingTimeout, st, tr⟩
      | .sFailed => ⟨.error .pairingFailed, st, tr⟩
      | .sSuccess =>
        match sched.connSignal with
        | .cTimeout => ⟨.error .connectionTimeout, st, tr⟩
        | .cFailed => ⟨.error .connectionFailedAfterPairing, st, tr⟩
        | .cConnected =>
          match sched.assignedID with
          | none => ⟨.error .noDeviceID, st, tr⟩
          | some senderID =>
            let paired : Client := ⟨some senderID, true⟩
            let st := ensureSenderRecord st senderID phoneNumber
            let st := { st with clients := mapInsert st.clients senderID paired }
            ⟨.ok paired, st, tr⟩

/-- Predicate of `cleanPhoneNumber`: a rune is kept when it lies between '0' and '9'. -/
def isDigitChar (c : Char) : Bool := '0' ≤ c && c ≤ '9'

/-- Model of `cleanPhoneNumber` (sender-registration service): iterate the runes
of the input and append exactly the decimal digits. -/
def cleanPhoneNumber (phone : String) : String :=
  phone.toList.foldl (fun acc c => if isDigitChar c then acc.push c else acc) ""

/-- An in-flight registration attempt (`application.RegistrationSession`). -/
structure RegistrationSession where
  sessionID : String
  client : Client
  status : String
  senderID : String
  qrCode : String
  pairingCode : String
  phoneNumber : String
  createdAt : Int
  deriving Repr, DecidableEq

/-- The `SenderRegistrationService` state: the token-keyed session store
plus the `ClientManager` it registers finished clients into. -/
structure RegService where
  sessions : List (String × RegistrationSession)
  mgr : ManagerState
  deriving Repr, DecidableEq

/-- Events observed by a registration attempt: whatsmeow lifecycle
events (pair-success carries the device identity now stored on the
client, if any) and the QR channel's items. -/
inductive RegEvent where
  | pairSuccess (storeID : Option String)
  | loggedOut
  | connectedE
  | disconnectedE
  | qrCode (payload : String)
  | qrSuccess
  | other
  deriving Repr, DecidableEq

/-- The QR-flow reaction to one event: the union of
`StartQRRegistration`'s event handler (pair-success sets `connected` and
captures the identity; logged-out sets `failed`; disconnected sets
`failed` only from `pending`) and its QR-channel goroutine (a code item
stores the latest encoded payload; the channel's `success` item sets
`connected` unconditionally). -/
def qrRegStep (s : RegistrationSession) (e : RegEvent) : RegistrationSession :=
  match e with
  | .pairSuccess storeID =>
    let s := { s with status := "connected" }
    match storeID with
    | some id => { s with senderID := id }
    | none => s
  | .loggedOut => { s with status := "failed" }
  | .connectedE => s
  | .disconnectedE =>
      if s.status == "pending" then { s with status := "failed" } else s
  | .qrCode payload => { s with qrCode := payload }
  | .qrSuccess => { s with status := "connected" }
  | .other => s

/-- The pairing-code-flow reaction (`StartCodeRegistration`'s event
handler): only pair-success and logged-out are handled. -/
def codeRegStep (s : RegistrationSession) (e : RegEvent) : RegistrationSession :=
  match e with
  | .pairSuccess storeID =>
    let s := { s with status := "connected" }
    match storeID with
    | some id => { s with senderID := id }
    | none => s
  | .loggedOut => { s with status := "failed" }
  | _ => s

/-- The registration-status HTTP response (the fields the embedded logic
computes; human-readable messages are omitted). -/
structure StatusResponse where
  success : Bool
  status : String
  senderID : String
  qrCode : String
  deriving Repr, DecidableEq

/-- Result of one status poll: the response, the service state
afterwards, and the provider calls made. -/
structure PollResult where
  resp : StatusResponse
  svc : RegService
  trace : List Action
  deriving Repr, DecidableEq

/-- Model of `SenderRegistrationService.GetRegistrationStatus`: unknown tokens
answer `not_found`; `connected` registers the client into the manager
when a sender identity was captured and forgets the session; `failed`
disconnects and forgets the session; `pending` surfaces the latest QR
payload. -/
def GetRegistrationStatus (svc : RegService) (sessionID : String) :
    PollResult :=
  match svc.sessions.lookup sessionID with
  | none => ⟨⟨false, "not_found", "", ""⟩, svc, []⟩
  | some sess =>
    let base : StatusResponse := ⟨true, sess.status, sess.senderID, ""⟩
    if sess.status == "connected" then
      let mgr :=
        if sess.senderID != "" then
          AddExistingClient svc.mgr sess.client sess.senderID
        else svc.mgr
      ⟨base, ⟨mapErase svc.sessions sessionID, mgr⟩, []⟩
    else if sess.status == "failed" then
      ⟨base, ⟨mapErase svc.sessions sessionID, svc.mgr⟩,
        [.disconnect sess.client]⟩
    else if sess.status == "pending" && sess.qrCode != "" then
      ⟨{ base with qrCode := sess.qrCode }, svc, []⟩
    else ⟨base, svc, []⟩

/-- Model of `SenderRegistrationService.cleanupOldSessions`: disconnect and drop
every session created strictly before `now` minus the 10-minute TTL
(times in seconds).  It runs only when a new registration is started,
never on a timer or at poll time. -/
def cleanupOldSessions (svc : RegService) (now : Int) :
    RegService × List Action :=
  let cutoff := now - 600
  let old := svc.sessions.filter (fun p => decide (p.2.createdAt < cutoff))
  let kept := svc.sessions.filter (fun p => !(decide (p.2.createdAt < cutoff)))
  ({ svc with sessions := kept }, old.map (fun p => .disconnect p.2.client))

/-- Schedule knobs for `StartCodeRegistration`: whether the websocket
connect fails and what `PairPhone` returns (`none` for an error). -/
structure CodeRegSchedule where
  connectFails : Bool
  pairPhoneCode : Option String
  deriving Repr, DecidableEq

/-- Result of starting a pairing-code registration. -/
structure StartCodeResult where
  ok : Bool
  pairingCode : String
  svc : RegService
  trace : List Action
  deriving Repr, DecidableEq

/-- Model of `SenderRegistrationService.StartCodeRegistration`: reject an empty
phone number, clean the number to digits, connect a fresh client,
request the pairing code with the cleaned number (disconnecting on
failure), then store a pending session keyed by the fresh token. -/
def StartCodeRegistration (svc : RegService) (phoneNumber sessionID : String)
    (now : Int) (sched : CodeRegSchedule) : StartCodeResult :=
  if phoneNumber == "" then ⟨false, "", svc, []⟩
  else
    let cleaned := cleanPhoneNumber phoneNumber
    let fresh : Client := ⟨none, false⟩
    if sched.connectFails then ⟨false, "", svc, [.connect fresh]⟩
    else
      match sched.pairPhoneCode with
      | none =>
          ⟨false, "", svc,
            [.connect fresh, .pairPhone cleaned, .disconnect fresh]⟩
      | some code =>
        let sess : RegistrationSession :=
          ⟨sessionID, fresh, "pending", "", "", code, cleaned, now⟩
        ⟨true, code,
          { svc with sessions := mapInsert svc.sessions sessionID sess },
          [.connect fresh, .pairPhone cleaned]⟩

/-- The `whatsappRepository` of the infrastructure layer: an optional
default client, a local sender→client map, and the optional
`ClientManager` consulted first. -/
structure WARepo where
  client : Option Client
  clientMap : List (String × Client)
  mgr : Option ManagerState
  deriving Repr, DecidableEq

/-- The repository's typed failures. -/
inductive RepoError where
  | senderNotFound
  | noClientAvailable
  deriving Repr, DecidableEq

/-- Model of `whatsappRepository.getClient`: a non-empty sender is looked up in
the manager and then the local map, and missing everywhere is an error
with no fallback; only the empty sender walks the default chain
(repository default client, then the manager's default). -/
def repoGetClient (r : WARepo) (senderID : String) : Except RepoError Client :=
  if senderID != "" then
    let viaManager : Except RepoError Client :=
      match r.clientMap.lookup senderID with
      | some c => .ok c
      | none => .error .senderNotFound
    match r.mgr with
    | some m =>
      match GetClient m senderID with
      | .ok c => .ok c
      | .error _ => viaManager
    | none => viaManager
  else
    match r.client with
    | some c => .ok c
    | none =>
      match r.mgr with
      | some m =>
        match GetDefaultClient m with
        | .ok c => .ok c
        | .error _ => .error .noClientAvailable
      | none => .error .noClientAvailable

/-- Outcome of `SendMessageFrom` up to the external send call: the
typed error, or the resolved client the send would go through. -/
inductive SendFromOutcome where
  | senderNotFound (senderID : String)
  | notConnected (senderID : String)
  | sendVia (c : Client) (recipient message : String)
  deriving Repr, DecidableEq

/-- Model of `whatsappRepository.SendMessageFrom`: resolve the sender through
`getClient` (any failure is reported as sender-not-found), require the
client to be connected, then hand the message to the provider. -/
def SendMessageFrom (r : WARepo) (fromID recipient message : String) :
    SendFromOutcome :=
  match repoGetClient r fromID with
  | .error _ => .senderNotFound fromID
  | .ok c =>
    if !c.connected then .notConnected fromID
    else .sendVia c recipient message

/-- Number of persisted sender records that are both default and active. -/
def countActiveDefaults (senders : List Sender) : Nat :=
  (senders.filter (fun s => s.isDefault && s.isActive)).length

/-- Recognizer for connect calls in an action trace. -/
def isConnectAction : Action → Bool
  | .connect _ => true
  | _ => false

/-- Recognizer for disconnect calls in an action trace. -/
def isDisconnectAction : Action → Bool
  | .disconnect _ => true
  | _ => false

theorem lookup_mapErase_self {α : Type} (l : List (String × α)) (k : String) :
    (mapErase l k).lookup k = none := by
  induction l with
  | nil => rfl
  | cons p t ih =>
    obtain ⟨a, b⟩ := p
    by_cases h : a = k
    · have hbne : (a != k) = false := by simp [h]
      simpa [mapErase, List.filter, hbne] using ih
    · have hbne : (a != k) = true := by simp [h]
      have hka : (k == a) = false := by
        simp only [beq_eq_false_iff_ne]
        exact fun hk => h hk.symm
      simpa [mapErase, List.filter, hbne, List.lookup, hka] using ih

theorem not_mem_filter_self (l : List String) (k : String) :
    k ∉ l.filter (fun x => x != k) := by
  intro h
  have := (List.mem_filter.mp h).2
  simp at this

theorem mem_of_lookup_eq_some {α : Type} {l : List (String × α)} {k : String}
    {v : α} (h : l.lookup k = some v) : (k, v) ∈ l := by
  induction l with
  | nil => simp [List.lookup] at h
  | cons p t ih =>
    obtain ⟨a, b⟩ := p
    by_cases hk : (k == a) = true
    · have ha : k = a := by simpa using hk
      simp only [List.lookup, hk] at h
      have hb : b = v := by simpa using h
      subst ha
      subst hb
      exact List.mem_cons_self _ _
    · have hk' : (k == a) = false := by simpa using hk
      simp only [List.lookup, hk'] at h
      exact List.mem_cons_of_mem _ (ih h)

theorem lookup_eq_none_of_not_mem_keys {α : Type} {l : List (String × α)}
    {k : String} (h : k ∉ l.map Prod.fst) : l.lookup k = none := by
  induction l with
  | nil => rfl
  | cons p t ih =>
    obtain ⟨a, b⟩ := p
    simp only [List.map_cons, List.mem_cons, not_or] at h
    have hk : (k == a) = false := by simpa using h.1
    simp only [List.lookup, hk]
    exact ih h.2

theorem lookup_filter_eq_none {α : Type} {l : List (String × α)} {k : String}
    {v : α} {q : String × α → Bool}
    (hnd : (l.map Prod.fst).Nodup) (hlk : l.lookup k = some v)
    (hq : q (k, v) = false) : (l.filter q).lookup k = none := by
  induction l with
  | nil => rfl
  | cons p t ih =>
    obtain ⟨a, b⟩ := p
    simp only [List.map_cons, List.nodup_cons] at hnd
    obtain ⟨hnotin, hnd⟩ := hnd
    by_cases hk : (k == a) = true
    · have ha : k = a := by simpa using hk
      subst ha
      have hself : (k == k) = true := by simp
      simp only [List.lookup, hself] at hlk
      have hb : b = v := by simpa using hlk
      subst hb
      simp only [List.filter, hq]
      apply lookup_eq_none_of_not_mem_keys
      intro hmem
      obtain ⟨p', hp', hfst⟩ := List.mem_map.mp hmem
      exact hnotin (List.mem_map.mpr ⟨p', (List.mem_filter.mp hp').1, hfst⟩)
    · have hk' : (k == a) = false := by simpa using hk
      simp only [List.lookup, hk'] at hlk
      have hrest := ih hnd hlk
      by_cases hqa : q (a, b) = true
      · simp only [List.filter, hqa, List.lookup, hk']
        exact hrest
      · have hqa' : q (a, b) = false := by simpa using hqa
        simp only [List.filter, hqa']
        exact hrest

/-- C1 helper: after a status update to `false`, every record carrying
the identity is inactive. -/
theorem updateSenderStatus_inactive (senders : List Sender) (senderID : String)
    (s : Sender) (hs : s ∈ updateSenderStatus senders senderID false)
    (hid : s.senderID = senderID) : s.isActive = false := by
  obtain ⟨s₀, hs₀, rfl⟩ := List.mem_map.mp hs
  by_cases h : (s₀.senderID == senderID) = true
  · simp [h]
  · simp only [h] at hid
    simp [h] at hid
    exact absurd (by simpa using hid) h

/-- C1: processing a logged-out event for a live registered identity
removes it from the live map (`GetClient` then fails with
sender-not-found), marks its sender record inactive, clears the default
pointer if it pointed to that identity, and deletes the persisted
device credentials. -/
theorem loggedOut_retires_identity (st : ManagerState) (c : Client)
    (senderID : String) (reason : Nat)
    (hid : c.storeID = some senderID)
    (hlive : (st.clients.lookup senderID).isSome)
    (hrec : ∃ s ∈ st.senders, s.senderID = senderID) :
    GetClient (handleEventWithCleanup st c (.loggedOut reason)).1 senderID
      = .error (.senderNotFound senderID)
    ∧ (∀ s ∈ (handleEventWithCleanup st c (.loggedOut reason)).1.senders,
        s.senderID = senderID → s.isActive = false)
    ∧ (∃ s ∈ (handleEventWithCleanup st c (.loggedOut reason)).1.senders,
        s.senderID = senderID ∧ s.isActive = false)
    ∧ (st.defaultSenderID = senderID →
        (handleEventWithCleanup st c (.loggedOut reason)).1.defaultSenderID = "")
    ∧ senderID ∉ (handleEventWithCleanup st c (.loggedOut reason)).1.devices := by
  refine ⟨?_, ?_, ?_, ?_, ?_⟩
  · simp [handleEventWithCleanup, hid, GetClient, lookup_mapErase_self]
  · intro s hs hsid
    simp only [handleEventWithCleanup, hid] at hs
    exact updateSenderStatus_inactive st.senders senderID s hs hsid
  · obtain ⟨s₀, hs₀, hsid⟩ := hrec
    refine ⟨{ s₀ with isActive := false }, ?_, hsid, rfl⟩
    simp only [handleEventWithCleanup, hid]
    have hbeq : (s₀.senderID == senderID) = true := by simpa using hsid
    have : ({ s₀ with isActive := false } : Sender)
        = (fun s => if s.senderID == senderID then { s with isActive := false }
            else s) s₀ := by
      simp [hbeq]
    rw [this]
    exact List.mem_map.mpr ⟨s₀, hs₀, rfl⟩
  · intro hdef
    have hbeq : (st.defaultSenderID == senderID) = true := by simpa using hdef
    simp [handleEventWithCleanup, hid, hbeq]
  · simp only [handleEventWithCleanup, hid]
    exact not_mem_filter_self st.devices senderID

/-- C1 witness: a concrete live session for identity 628111 that is the
default and has a sender record, retired by one logged-out event. -/
theorem loggedOut_retires_identity_witness :
    GetClient (handleEventWithCleanup
        ⟨[("628111", ⟨some "628111", true⟩)], "628111", [],
          [⟨"628111", "628111", "Sender 628111", true, true⟩], ["628111"]⟩
        ⟨some "628111", true⟩ (.loggedOut 1)).1 "628111"
      = .error (.senderNotFound "628111") :=
  (loggedOut_retires_identity
    ⟨[("628111", ⟨some "628111", true⟩)], "628111", [],
      [⟨"628111", "628111", "Sender 628111", true, true⟩], ["628111"]⟩
    ⟨some "628111", true⟩ "628111" 1 rfl (by decide)
    ⟨⟨"628111", "628111", "Sender 628111", true, true⟩, by decide, rfl⟩).1

/-- C2: disconnect-flavored events never emit a connect call (no
reconnect attempt is reachable from those handler branches), and among
them only logged-out mutates state; disconnected, stream-error and
stream-replaced leave the entire state unchanged. -/
theorem disconnect_events_no_reconnect (st : ManagerState) (c : Client)
    (reason : Nat) (code : String) :
    (handleEventWithCleanup st c .disconnectedE).1 = st
    ∧ (handleEventWithCleanup st c (.streamError code)).1 = st
    ∧ (handleEventWithCleanup st c .streamReplaced).1 = st
    ∧ ((handleEventWithCleanup st c (.loggedOut reason)).2).filter
        isConnectAction = []
    ∧ ((handleEventWithCleanup st c .disconnectedE).2).filter
        isConnectAction = []
    ∧ ((handleEventWithCleanup st c (.streamError code)).2).filter
        isConnectAction = []
    ∧ ((handleEventWithCleanup st c .streamReplaced).2).filter
        isConnectAction = [] := by
  cases hc : c.storeID <;>
    simp [handleEventWithCleanup, handleEventActions, hc, isConnectAction,
      List.filter]

/-- C4: a QR pairing attempt whose five-minute deadline expires before
any pairing signal fires fails with the pairing-timeout error and
leaves the manager state, in particular the live map, untouched. -/
theorem qr_pairing_timeout (st : ManagerState) (sched : PairSchedule)
    (hconn : sched.connectFails = false)
    (htimeout : sched.firstSignal = .sTimeout) :
    (AddNewClient st sched).result = .error .pairingTimeout
    ∧ (AddNewClient st sched).state = st
    ∧ ∀ senderID : String,
        (AddNewClient st sched).state.clients.lookup senderID
          = st.clients.lookup senderID := by
  refine ⟨?_, ?_, ?_⟩ <;> simp [AddNewClient, hconn, htimeout]

/-- C4 witness: the timeout schedule on an empty manager. -/
theorem qr_pairing_timeout_witness :
    (AddNewClient ⟨[], "", [], [], []⟩
        ⟨false, .sTimeout, .cConnected, none⟩).result = .error .pairingTimeout
    ∧ (AddNewClient ⟨[], "", [], [], []⟩
        ⟨false, .sTimeout, .cConnected, none⟩).state = ⟨[], "", [], [], []⟩ :=
  ⟨(qr_pairing_timeout ⟨[], "", [], [], []⟩
      ⟨false, .sTimeout, .cConnected, none⟩ rfl rfl).1,
   (qr_pairing_timeout ⟨[], "", [], [], []⟩
      ⟨false, .sTimeout, .cConnected, none⟩ rfl rfl).2.1⟩

/-- C5: evaluated on the timed-out QR attempt and the timed-out
pairing-code attempt, the code returns the timeout error with no
disconnect call anywhere in the trace: the half-open connection that
was opened by the preceding connect call is left standing, contrary to
the specified cancellation behavior. -/
theorem pairing_timeout_never_disconnects :
    (AddNewClient ⟨[], "", [], [], []⟩
        ⟨false, .sTimeout, .cConnected, none⟩).result = .error .pairingTimeout
    ∧ ((AddNewClient ⟨[], "", [], [], []⟩
        ⟨false, .sTimeout, .cConnected, none⟩).trace).filter
          isDisconnectAction = []
    ∧ ((AddNewClient ⟨[], "", [], [], []⟩
        ⟨false, .sTimeout, .cConnected, none⟩).trace).filter
          isConnectAction = [.connect ⟨none, false⟩]
    ∧ (AddNewClientWithPairingCode ⟨[], "", [], [], []⟩ "+628123456789"
        ⟨false, some "ABCD-1234", .sTimeout, .cConnected, none⟩).result
      = .error .pairingTimeout
    ∧ ((AddNewClientWithPairingCode ⟨[], "", [], [], []⟩ "+628123456789"
        ⟨false, some "ABCD-1234", .sTimeout, .cConnected, none⟩).trace).filter
          isDisconnectAction = []
    ∧ ((AddNewClientWithPairingCode ⟨[], "", [], [], []⟩ "+628123456789"
        ⟨false, some "ABCD-1234", .sTimeout, .cConnected, none⟩).trace).filter
          isConnectAction = [.connect ⟨none, false⟩] := by
  refine ⟨rfl, rfl, rfl, rfl, rfl, rfl⟩

theorem countActiveDefaults_cons (s : Sender) (t : List Sender) :
    countActiveDefaults (s :: t)
      = (if s.isDefault && s.isActive then 1 else 0) + countActiveDefaults t := by
  by_cases h : (s.isDefault && s.isActive) = true
  · simp [countActiveDefaults, List.filter, h]
    omega
  · have h' : (s.isDefault && s.isActive) = false := by simpa using h
    simp [countActiveDefaults, List.filter, h']

/-- C3 helper: the unset-all-then-set-one rewrite leaves at most one
default record when sender ids are unique, and none at all when the
requested id is absent. -/
theorem setDefault_rewrite_le_one (senders : List Sender) (sid : String)
    (hnd : (senders.map (fun s => s.senderID)).Nodup) :
    countActiveDefaults
      (senders.map (fun s => { s with isDefault := s.senderID == sid })) ≤ 1
    ∧ (sid ∉ senders.map (fun s => s.senderID) →
        countActiveDefaults
          (senders.map (fun s => { s with isDefault := s.senderID == sid })) = 0) := by
  induction senders with
  | nil => exact ⟨by simp [countActiveDefaults], fun _ => by simp [countActiveDefaults]⟩
  | cons s t ih =>
    simp only [List.map_cons, List.nodup_cons] at hnd
    obtain ⟨hs, hndt⟩ := hnd
    obtain ⟨ih1, ih0⟩ := ih hndt
    rw [List.map_cons, countActiveDefaults_cons]
    by_cases hbeq : (s.senderID == sid) = true
    · have heq : s.senderID = sid := by simpa using hbeq
      have htail : countActiveDefaults
          (t.map (fun x => { x with isDefault := x.senderID == sid })) = 0 := by
        apply ih0
        rw [← heq]
        exact hs
      constructor
      · simp only [hbeq, Bool.true_and, htail]
        split <;> omega
      · intro hnot
        exfalso
        exact hnot (by simp [List.mem_cons, heq])
    · have hbeq' : (s.senderID == sid) = false := by simpa using hbeq
      constructor
      · simp only [hbeq', Bool.false_and]
        simpa using ih1
      · intro hnot
        have hnot2 : sid ∉ List.map (fun s => s.senderID) t :=
          fun hm => hnot (List.mem_cons_of_mem _ hm)
        have := ih0 hnot2
        simpa [hbeq'] using this

/-- C3 (amended): a successful `SetDefaultSender` call leaves at most
one record with the default flag among active records (indeed among all
records), because it rewrites the whole table in one transaction; this
holds whenever the persisted sender ids are unique, which the table's
primary key guarantees. -/
theorem setDefaultSender_default_exclusive (st st' : ManagerState)
    (senderID : String)
    (hnd : (st.senders.map (fun s => s.senderID)).Nodup)
    (hok : SetDefaultSender st senderID = .ok st') :
    countActiveDefaults st'.senders ≤ 1 := by
  have hsenders : st'.senders
      = st.senders.map (fun s => { s with isDefault := s.senderID == senderID }) := by
    unfold SetDefaultSender at hok
    by_cases hlive : (st.clients.lookup senderID).isSome = true
    · rw [if_pos hlive] at hok
      cases hrep : repoSetDefaultSender st.senders senderID with
      | none =>
        rw [hrep] at hok
        exact absurd hok (by simp)
      | some senders' =>
        rw [hrep] at hok
        have heq : ({ st with senders := senders', defaultSenderID := senderID }
            : ManagerState) = st' := by simpa using hok
        unfold repoSetDefaultSender at hrep
        by_cases hany : (st.senders.any (fun s => s.senderID == senderID)) = true
        · rw [if_pos hany] at hrep
          have h2 : senders'
              = st.senders.map
                  (fun s => { s with isDefault := s.senderID == senderID }) := by
            simpa using hrep.symm
          rw [← heq]
          exact h2
        · rw [if_neg hany] at hrep
          exact absurd hrep (by simp)
    · rw [if_neg hlive] at hok
      exact absurd hok (by simp)
  rw [hsenders]
  exact (setDefault_rewrite_le_one st.senders senderID hnd).1

/-- C3 amended-claim witness: setting sender 628222 as default on a
manager with two live senders and two active default records yields a
table with exactly one default. -/
theorem setDefaultSender_default_exclusive_witness :
    countActiveDefaults
      ((⟨[("628111", ⟨some "628111", true⟩), ("628222", ⟨some "628222", true⟩)],
          "628222",
          [],
          [⟨"628111", "628111", "Sender 628111", false, true⟩,
            ⟨"628222", "628222", "Sender 628222", true, true⟩],
          ["628111", "628222"]⟩ : ManagerState).senders) ≤ 1 :=
  setDefaultSender_default_exclusive
    ⟨[("628111", ⟨some "628111", true⟩), ("628222", ⟨some "628222", true⟩)],
      "",
      [],
      [⟨"628111", "628111", "Sender 628111", true, true⟩,
        ⟨"628222", "628222", "Sender 628222", true, true⟩],
      ["628111", "628222"]⟩
    ⟨[("628111", ⟨some "628111", true⟩), ("628222", ⟨some "628222", true⟩)],
      "628222",
      [],
      [⟨"628111", "628111", "Sender 628111", false, true⟩,
        ⟨"628222", "628222", "Sender 628222", true, true⟩],
      ["628111", "628222"]⟩
    "628222" (by decide) rfl

/-- C3 counterexample: two successful `AddNewClient` pairings on a
fresh manager (no persisted senders, empty default pointer) persist two
records that are both default and active, because `AddNewClient` never
updates the in-memory default pointer that `ensureSenderRecord`
consults. -/
theorem addNewClient_double_default :
    countActiveDefaults
      ((AddNewClient
          (AddNewClient ⟨[], "", [], [], []⟩
            ⟨false, .sSuccess, .cConnected, some "628001"⟩).state
          ⟨false, .sSuccess, .cConnected, some "628002"⟩).state.senders) = 2 := by
  decide

/-- C6 counterexample: on the QR registration handler, a disconnect
event moves a pending session to the terminal status failed, yet a
subsequent pair-success event moves it again, to connected — a terminal
status does change. -/
theorem qr_failed_then_connected :
    (qrRegStep ⟨"t", ⟨none, false⟩, "pending", "", "", "", "", 0⟩
        .disconnectedE).status = "failed"
    ∧ (qrRegStep (qrRegStep ⟨"t", ⟨none, false⟩, "pending", "", "", "", "", 0⟩
        .disconnectedE) (.pairSuccess (some "628111"))).status = "connected"
    ∧ (("failed" : String) == "connected") = false := by
  refine ⟨rfl, rfl, by decide⟩

/-- C6 (amended): every event moves the status to connected, to failed,
or leaves it unchanged — so from pending it moves only to connected or
failed, and the status never returns to pending — but terminal statuses
are not sticky: a pair-success event always sets connected and a
logged-out event always sets failed, in both registration flows. -/
theorem regStep_status_characterization (s : RegistrationSession)
    (e : RegEvent) (oid : Option String) :
    ((qrRegStep s e).status = s.status ∨ (qrRegStep s e).status = "connected"
      ∨ (qrRegStep s e).status = "failed")
    ∧ ((codeRegStep s e).status = s.status
      ∨ (codeRegStep s e).status = "connected"
      ∨ (codeRegStep s e).status = "failed")
    ∧ (qrRegStep s (.pairSuccess oid)).status = "connected"
    ∧ (qrRegStep s .loggedOut).status = "failed"
    ∧ (codeRegStep s (.pairSuccess oid)).status = "connected"
    ∧ (codeRegStep s .loggedOut).status = "failed" := by
  refine ⟨?_, ?_, ?_, ?_, ?_, ?_⟩
  · cases e with
    | pairSuccess oid2 => cases oid2 <;> simp [qrRegStep]
    | disconnectedE =>
      by_cases h : (s.status == "pending") = true <;> simp [qrRegStep, h]
    | _ => simp [qrRegStep]
  · cases e with
    | pairSuccess oid2 => cases oid2 <;> simp [codeRegStep]
    | _ => simp [codeRegStep]
  · cases oid <;> simp [qrRegStep]
  · simp [qrRegStep]
  · cases oid <;> simp [codeRegStep]
  · simp [codeRegStep]

theorem lookup_mapInsert_self {α : Type} (l : List (String × α)) (k : String)
    (v : α) : (mapInsert l k v).lookup k = some v := by
  have hself : (k == k) = true := by simp
  simp [mapInsert, List.lookup, hself]

theorem AddExistingClient_clients (st : ManagerState) (c : Client)
    (senderID : String) :
    (AddExistingClient st c senderID).clients = mapInsert st.clients senderID c := by
  by_cases h : (st.defaultSenderID == "") = true <;>
    simp [AddExistingClient, h]

/-- C7 counterexample: a pending registration session created at time 0
and polled well past the 10-minute TTL (say at 700 s) still answers
with its stale status, because `GetRegistrationStatus` consults no
clock and the cleanup never runs at poll time. -/
theorem poll_ignores_session_age :
    (GetRegistrationStatus
        ⟨[("t", ⟨"t", ⟨none, false⟩, "pending", "", "", "", "", 0⟩)],
          ⟨[], "", [], [], []⟩⟩ "t").resp.status = "pending"
    ∧ (("pending" : String) == "not_found") = false :=
  ⟨rfl, by decide⟩

/-- C7 (amended): a session strictly older than the 10-minute TTL is
dropped and its connection disconnected when `cleanupOldSessions`
actually runs — which happens when a new registration starts, not on a
timer and not at poll time — and only a poll made after such a cleanup
answers not_found. -/
theorem cleanup_then_poll_not_found (svc : RegService) (now : Int)
    (tok : String) (sess : RegistrationSession)
    (hnd : (svc.sessions.map Prod.fst).Nodup)
    (hlk : svc.sessions.lookup tok = some sess)
    (hold : sess.createdAt < now - 600) :
    (cleanupOldSessions svc now).1.sessions.lookup tok = none
    ∧ Action.disconnect sess.client ∈ (cleanupOldSessions svc now).2
    ∧ (GetRegistrationStatus (cleanupOldSessions svc now).1 tok).resp.status
        = "not_found" := by
  have h1 : (cleanupOldSessions svc now).1.sessions.lookup tok = none := by
    simp only [cleanupOldSessions]
    exact lookup_filter_eq_none hnd hlk (by simp [hold])
  refine ⟨h1, ?_, ?_⟩
  · simp only [cleanupOldSessions]
    have hmem : (tok, sess) ∈ svc.sessions := mem_of_lookup_eq_some hlk
    have hin : (tok, sess) ∈ svc.sessions.filter
        (fun p => decide (p.2.createdAt < now - 600)) :=
      List.mem_filter.mpr ⟨hmem, by simpa using hold⟩
    exact List.mem_map.mpr ⟨(tok, sess), hin, rfl⟩
  · simp [GetRegistrationStatus, h1]

/-- C7 amended-claim witness: one 700-second-old session, swept at time
700 and then polled. -/
theorem cleanup_then_poll_not_found_witness :
    (cleanupOldSessions
        ⟨[("t", ⟨"t", ⟨none, false⟩, "pending", "", "", "", "", 0⟩)],
          ⟨[], "", [], [], []⟩⟩ 700).1.sessions.lookup "t" = none
    ∧ (GetRegistrationStatus
        (cleanupOldSessions
          ⟨[("t", ⟨"t", ⟨none, false⟩, "pending", "", "", "", "", 0⟩)],
            ⟨[], "", [], [], []⟩⟩ 700).1 "t").resp.status = "not_found" :=
  ⟨(cleanup_then_poll_not_found
      ⟨[("t", ⟨"t", ⟨none, false⟩, "pending", "", "", "", "", 0⟩)],
        ⟨[], "", [], [], []⟩⟩ 700 "t"
      ⟨"t", ⟨none, false⟩, "pending", "", "", "", "", 0⟩
      (by decide) rfl (by decide)).1,
   (cleanup_then_poll_not_found
      ⟨[("t", ⟨"t", ⟨none, false⟩, "pending", "", "", "", "", 0⟩)],
        ⟨[], "", [], [], []⟩⟩ 700 "t"
      ⟨"t", ⟨none, false⟩, "pending", "", "", "", "", 0⟩
      (by decide) rfl (by decide)).2.2⟩

/-- C8 counterexample: a session observed connected while its sender
identity is still empty (the QR channel's success item ran before the
pair-success event captured the identity) is forgotten by the poll
without registering its client handle: the manager's live map stays
empty. -/
theorem poll_connected_without_sender_drops_handle :
    (GetRegistrationStatus
        ⟨[("t", ⟨"t", ⟨none, false⟩, "connected", "", "", "", "", 0⟩)],
          ⟨[], "", [], [], []⟩⟩ "t").svc.mgr.clients = []
    ∧ (GetRegistrationStatus
        ⟨[("t", ⟨"t", ⟨none, false⟩, "connected", "", "", "", "", 0⟩)],
          ⟨[], "", [], [], []⟩⟩ "t").svc.sessions = []
    ∧ (GetRegistrationStatus
        ⟨[("t", ⟨"t", ⟨none, false⟩, "connected", "", "", "", "", 0⟩)],
          ⟨[], "", [], [], []⟩⟩ "t").resp.status = "connected" :=
  ⟨rfl, rfl, rfl⟩

/-- C8 (amended): a poll observing connected removes the session from
the store and registers the client handle into the manager provided a
sender identity was captured; a poll observing failed disconnects the
session's connection and removes the session. -/
theorem poll_terminal_statuses (svc : RegService) (tok : String)
    (sess : RegistrationSession)
    (hlk : svc.sessions.lookup tok = some sess) :
    (sess.status = "connected" →
      (GetRegistrationStatus svc tok).svc.sessions.lookup tok = none
      ∧ (sess.senderID ≠ "" →
          (GetRegistrationStatus svc tok).svc.mgr.clients.lookup sess.senderID
            = some sess.client))
    ∧ (sess.status = "failed" →
      (GetRegistrationStatus svc tok).svc.sessions.lookup tok = none
      ∧ Action.disconnect sess.client ∈ (GetRegistrationStatus svc tok).trace) := by
  constructor
  · intro hc
    have hc' : (sess.status == "connected") = true := by simpa using hc
    constructor
    · simp [GetRegistrationStatus, hlk, hc', lookup_mapErase_self]
    · intro hsid
      have hsid' : (sess.senderID != "") = true := by simpa using hsid
      simp [GetRegistrationStatus, hlk, hc', hsid', AddExistingClient_clients,
        lookup_mapInsert_self]
  · intro hf
    have hf1 : (sess.status == "connected") = false := by
      simp [hf]
    have hf2 : (sess.status == "failed") = true := by simpa using hf
    constructor
    · simp [GetRegistrationStatus, hlk, hf1, hf2, lookup_mapErase_self]
    · simp [GetRegistrationStatus, hlk, hf1, hf2]

/-- C8 amended-claim witness: a connected session that did capture the
identity 628111 is registered into the manager and forgotten. -/
theorem poll_terminal_statuses_witness :
    (GetRegistrationStatus
        ⟨[("t", ⟨"t", ⟨some "628111", true⟩, "connected", "628111", "", "", "", 0⟩)],
          ⟨[], "", [], [], []⟩⟩ "t").svc.sessions.lookup "t" = none
    ∧ (GetRegistrationStatus
        ⟨[("t", ⟨"t", ⟨some "628111", true⟩, "connected", "628111", "", "", "", 0⟩)],
          ⟨[], "", [], [], []⟩⟩ "t").svc.mgr.clients.lookup "628111"
        = some ⟨some "628111", true⟩ := by
  have h := (poll_terminal_statuses
    ⟨[("t", ⟨"t", ⟨some "628111", true⟩, "connected", "628111", "", "", "", 0⟩)],
      ⟨[], "", [], [], []⟩⟩ "t"
    ⟨"t", ⟨some "628111", true⟩, "connected", "628111", "", "", "", 0⟩
    rfl).1 rfl
  exact ⟨h.1, h.2 (by decide)⟩

theorem cleanPhoneNumber_push_aux (l : List Char) (acc : List Char) :
    l.foldl (fun acc c => if isDigitChar c then acc.push c else acc)
        (String.mk acc)
      = String.mk (acc ++ l.filter isDigitChar) := by
  induction l generalizing acc with
  | nil => simp
  | cons c t ih =>
    by_cases h : isDigitChar c = true
    · have hpush : (String.mk acc).push c = String.mk (acc ++ [c]) := rfl
      rw [List.foldl_cons]
      rw [if_pos h, hpush, ih]
      simp [List.filter, h]
    · have h' : isDigitChar c = false := by simpa using h
      rw [List.foldl_cons]
      rw [if_neg (by simp [h']), ih]
      simp [List.filter, h']

/-- The cleaning function keeps exactly the decimal-digit runes of its
input, in their original order. -/
theorem cleanPhoneNumber_spec (phone : String) :
    cleanPhoneNumber phone = String.mk (phone.toList.filter isDigitChar) := by
  have h := cleanPhoneNumber_push_aux phone.toList []
  simpa [cleanPhoneNumber] using h

/-- C9: the cleaning function returns exactly the decimal digits of its
input in order, and the pairing-code flow hands precisely that cleaned
number to the provider's phone-pairing call. -/
theorem code_flow_uses_cleaned_phone (svc : RegService)
    (phone sessionID : String) (now : Int) (sched : CodeRegSchedule)
    (hne : phone ≠ "") (hconn : sched.connectFails = false) :
    cleanPhoneNumber phone = String.mk (phone.toList.filter isDigitChar)
    ∧ Action.pairPhone (cleanPhoneNumber phone)
        ∈ (StartCodeRegistration svc phone sessionID now sched).trace := by
  refine ⟨cleanPhoneNumber_spec phone, ?_⟩
  have hne' : (phone == "") = false := by simpa using hne
  cases hpair : sched.pairPhoneCode with
  | none => simp [StartCodeRegistration, hne', hconn, hpair]
  | some code => simp [StartCodeRegistration, hne', hconn, hpair]

/-- C9 witness: a formatted number with plus sign, spaces and dashes. -/
theorem code_flow_uses_cleaned_phone_witness :
    cleanPhoneNumber "+62 812-3456"
      = String.mk (("+62 812-3456" : String).toList.filter isDigitChar)
    ∧ Action.pairPhone (cleanPhoneNumber "+62 812-3456")
        ∈ (StartCodeRegistration ⟨[], ⟨[], "", [], [], []⟩⟩ "+62 812-3456"
            "tok" 0 ⟨false, some "CODE-1234"⟩).trace :=
  code_flow_uses_cleaned_phone ⟨[], ⟨[], "", [], [], []⟩⟩ "+62 812-3456"
    "tok" 0 ⟨false, some "CODE-1234"⟩ (by decide) rfl

/-- C10: a non-empty sender identity that is registered neither in the
manager nor in the repository's local map makes `SendMessageFrom` fail
with sender-not-found, independently of whatever default client the
repository or the manager holds; the default chain (repository default,
then manager default) is consulted only for the empty identity. -/
theorem sendFrom_no_default_fallback (r : WARepo) (m : ManagerState)
    (fromID recipient message : String)
    (hne : fromID ≠ "")
    (hmgr : r.mgr = some m)
    (hm : m.clients.lookup fromID = none)
    (hmap : r.clientMap.lookup fromID = none) :
    SendMessageFrom r fromID recipient message = .senderNotFound fromID
    ∧ repoGetClient r fromID = .error .senderNotFound
    ∧ (∀ (dc : Option Client) (d : String) (dv : List String),
        SendMessageFrom
          { client := dc, clientMap := r.clientMap,
            mgr := some { m with defaultSenderID := d, devices := dv } }
          fromID recipient message = .senderNotFound fromID)
    ∧ (∀ c : Client, repoGetClient { r with client := some c } "" = .ok c)
    ∧ (∀ c : Client, GetDefaultClient m = .ok c →
        repoGetClient { r with client := none } "" = .ok c) := by
  have hne' : (fromID != "") = true := by simpa using hne
  have hget : repoGetClient r fromID = .error .senderNotFound := by
    simp [repoGetClient, hne', hmgr, GetClient, hm, hmap]
  refine ⟨?_, hget, ?_, ?_, ?_⟩
  · simp [SendMessageFrom, hget]
  · intro dc d dv
    simp [SendMessageFrom, repoGetClient, hne', GetClient, hm, hmap]
  · intro c
    simp [repoGetClient]
  · intro c hd
    simp [repoGetClient, hmgr, hd]

/-- C10 witness: the unknown sender `ghost` on a repository wired to an
empty manager but holding a connected default client. -/
theorem sendFrom_no_default_fallback_witness :
    SendMessageFrom
        ⟨some ⟨some "628999", true⟩, [], some ⟨[], "", [], [], []⟩⟩
        "ghost" "628111@s.whatsapp.net" "hi"
      = .senderNotFound "ghost" :=
  (sendFrom_no_default_fallback
    ⟨some ⟨some "628999", true⟩, [], some ⟨[], "", [], [], []⟩⟩
    ⟨[], "", [], [], []⟩ "ghost" "628111@s.whatsapp.net" "hi"
    (by decide) rfl rfl rfl).1

end WhatsPoints
